import Mathlib

/-!
Shallow embedding of the d-analyze backend (src/app.py, src/file_utils.py)
and proofs about its claimed behaviour.

External collaborators (the chardet, magic, werkzeug and requests libraries,
the database cursor, and the language-model helpers from data_processing.py)
are modelled as explicit function parameters or outcome values; the control
flow of the repository's own code is translated faithfully.
-/

/-- ASCII lowering of one character, the fragment of Python's `str.lower`
relevant to extension and format comparisons. -/
def pyLowerChar (c : Char) : Char :=
  if 'A' ≤ c ∧ c ≤ 'Z' then Char.ofNat (c.toNat + 32) else c

/-- Python's `str.lower()` restricted to ASCII case folding. -/
def pyLower (s : String) : String :=
  (s.data.map pyLowerChar).asString

/-- The characters after the last occurrence of `sep`, or `none` when `sep`
does not occur: the shared core of `rsplit('.', 1)[1]` and `split("/")[-1]`. -/
def afterLast (sep : Char) : List Char → Option (List Char)
  | [] => none
  | c :: rest =>
    match afterLast sep rest with
    | some suf => some suf
    | none => if c = sep then some rest else none

namespace FileUtils

/-- Python exceptions that can escape `allowed_file` (src/file_utils.py):
`IndexError` from `file.filename.rsplit('.', 1)[1]` when the filename has
no dot, and `TypeError` from `file_blob.decode(None)` when chardet detects
no encoding (only `UnicodeDecodeError` is caught by the function). -/
inductive PyErr where
  | indexError : PyErr
  | typeError : PyErr
  deriving DecidableEq

/-- Extension extraction of `allowed_file`: `filename.rsplit('.', 1)[1]`,
with `none` standing for the `IndexError` case (no dot in the filename). -/
def extOf (s : String) : Option String :=
  (afterLast '.' s.data).map List.asString

/-- `ALLOWED_MIME_TYPES = {'text/csv'}` (src/file_utils.py line 5). -/
def ALLOWED_MIME_TYPES : List String := ["text/csv"]

/-- Embedding of `allowed_file` (src/file_utils.py lines 7-39).

Collaborators are passed in: `chardetDetect` is `chardet.detect(blob)['encoding']`
(`none` = chardet reports no encoding); `decodeBytes enc blob` is
`blob.decode(enc)` with `none` standing for `UnicodeDecodeError` (the only
exception the source catches); `magicFromBuffer` is
`magic.from_buffer(blob, mime=True)`. The `file.read()` / `file.seek(0)` pair
has no observable effect in the embedding. -/
def allowed_file
    (chardetDetect : List Nat → Option String)
    (decodeBytes : String → List Nat → Option (List Char))
    (magicFromBuffer : List Nat → String)
    (filename : String) (content : List Nat) : Except PyErr Bool :=
  match extOf filename with
  | none => .error .indexError
  | some rawExt =>
    let fileExt := pyLower rawExt
    if fileExt = "csv" then
      match chardetDetect content with
      | none => .error .typeError
      | some enc =>
        match decodeBytes enc content with
        | some _ => .ok true
        | none => .ok (ALLOWED_MIME_TYPES.contains (magicFromBuffer content))
    else
      .ok (ALLOWED_MIME_TYPES.contains (magicFromBuffer content))

end FileUtils

namespace AppModel

/-- One resource of a catalog package: `resource['format']` is the field
`filter_resources` inspects; `url` stands for the rest of the mapping. -/
structure Resource where
  format : String
  url : String
  deriving DecidableEq

/-- One package of the upstream catalog response (`data['result']['results']`
elements): `name` stands for all fields other than `resources`. -/
structure Package where
  name : String
  resources : List Resource
  deriving DecidableEq

/-- The `data['result']` mapping: `results` is the package list, `count`
stands for its other keys. -/
structure ResultBlock where
  count : Nat
  results : List Package
  deriving DecidableEq

/-- The upstream response body: `result = none` models a mapping without a
`'result'` key; `help` stands for all other top-level keys. -/
structure CatalogData where
  help : String
  result : Option ResultBlock
  deriving DecidableEq

/-- The per-package test of `filter_resources` (src/app.py line 28):
`any(resource['format'].lower() in ['csv'] for resource in package['resources'])`. -/
def packageHasCsv (p : Package) : Bool :=
  p.resources.any (fun r => (["csv"] : List String).contains (pyLower r.format))

/-- Embedding of `filter_resources` (src/app.py lines 21-32): return the data
unchanged when there is no `'result'` key, otherwise rebuild the package list
by appending, in loop order, each package passing `packageHasCsv`. -/
def filter_resources (data : CatalogData) : CatalogData :=
  match data.result with
  | none => data
  | some res =>
    let filtered := res.results.foldl
      (fun acc package => if packageHasCsv package then acc ++ [package] else acc) []
    { data with result := some { res with results := filtered } }

/-- A Python value as the custom `JSONEncoder.default` (src/app.py lines
34-50) can receive it. `naT` is the pandas `NaTType` sentinel; `npScalar`
is a `np.generic` scalar with its `np.isnan` flag and its `.item()` payload
(the payload is abstracted to an integer: only the NaN / non-NaN distinction
matters to the encoder); `pdTimestamp`, `pyDatetime` and `pyDate` carry the
string their `isoformat()` returns; `pyDict` is a `dict`; `otherObj` is any
value matching none of the `isinstance` checks. -/
inductive PyVal where
  | naT : PyVal
  | npScalar (isNan : Bool) (item : Int) : PyVal
  | pdTimestamp (iso : String) : PyVal
  | pyDatetime (iso : String) : PyVal
  | pyDate (iso : String) : PyVal
  | pyDict (entries : List (String × PyVal)) : PyVal
  | otherObj (tag : String) : PyVal

/-- What `JSONEncoder.default` returns when it does not raise. -/
inductive EncVal where
  | encNull : EncVal
  | encItem (n : Int) : EncVal
  | encStr (s : String) : EncVal
  | encDict (entries : List (String × EncVal)) : EncVal

mutual

/-- Embedding of `JSONEncoder.default` (src/app.py lines 35-50). The final
`return super().default(obj)` is the base `json.JSONEncoder.default`, which
always raises `TypeError`, modelled as `.error ()`; the dict branch is the
comprehension on line 49, which propagates any `TypeError` raised for an
entry value. -/
def JSONEncoder.default : PyVal → Except Unit EncVal
  | .naT => .ok .encNull
  | .npScalar true _ => .ok .encNull
  | .npScalar false i => .ok (.encItem i)
  | .pdTimestamp s => .ok (.encStr s)
  | .pyDatetime s => .ok (.encStr s)
  | .pyDate s => .ok (.encStr s)
  | .pyDict es => (JSONEncoder.defaultEntries es).map EncVal.encDict
  | .otherObj _ => .error ()

/-- The dict comprehension `{key: self.default(value) for key, value in
obj.items()}` of src/app.py line 49, entry by entry. -/
def JSONEncoder.defaultEntries :
    List (String × PyVal) → Except Unit (List (String × EncVal))
  | [] => .ok []
  | (k, v) :: rest =>
    match JSONEncoder.default v with
    | .error e => .error e
    | .ok ev =>
      match JSONEncoder.defaultEntries rest with
      | .error e => .error e
      | .ok evs => .ok ((k, ev) :: evs)

end

/-- Outcome of the `file.save` + `clean_and_store_data` block of an upload
handler: either that block raised, or it returned `(upload_id, sample_data)`
with `upload_id` possibly `None` and `sample_data.empty` recorded as a flag. -/
inductive IngestOutcome where
  | raised : IngestOutcome
  | stored (upload_id : Option String) (sampleEmpty : Bool) : IngestOutcome
  deriving DecidableEq

/-- The distinct JSON bodies an upload handler can answer with. -/
inductive UploadResp where
  | success (upload_id : String) : UploadResp
  | errNoFilePart : UploadResp
  | errNoSelectedFile : UploadResp
  | errSaving : UploadResp
  | errProcessing : UploadResp
  | errUnsupportedType : UploadResp
  | errDownload : UploadResp
  | errUnhandled : UploadResp
  deriving DecidableEq

/-- The upload folder as the set of file names present, written as a
duplicate-free list; `file.save(path)` makes `path` present. -/
def saveFile (files : List String) (path : String) : List String :=
  if path ∈ files then files else files ++ [path]

/-- `os.remove(path)` on the upload folder. -/
def removeFile (files : List String) (path : String) : List String :=
  files.erase path

/-- Embedding of the `/upload` handler `upload_file` (src/app.py lines
63-125). `filePresent` is `'file' in request.files`; `secure_filename` is the
werkzeug sanitizer, whose output joined with `UPLOAD_FOLDER` is the saved
path; `ingest` is the outcome of `clean_and_store_data` (`file.save` itself
is assumed not to raise). An exception escaping `allowed_file` is caught by
the handler's outer `except` (500, before any file is saved); the
`try/finally` around ingestion removes the saved file on every path.
Returns the HTTP status, the response body, and the final upload folder. -/
def upload_file
    (chardetDetect : List Nat → Option String)
    (decodeBytes : String → List Nat → Option (List Char))
    (magicFromBuffer : List Nat → String)
    (secure_filename : String → String)
    (filePresent : Bool) (filename : String) (content : List Nat)
    (ingest : IngestOutcome) (files : List String) :
    Nat × UploadResp × List String :=
  if !filePresent then (400, .errNoFilePart, files)
  else if filename = "" then (400, .errNoSelectedFile, files)
  else
    match FileUtils.allowed_file chardetDetect decodeBytes magicFromBuffer
        filename content with
    | .error _ => (500, .errUnhandled, files)
    | .ok false => (400, .errUnsupportedType, files)
    | .ok true =>
      let path := secure_filename filename
      let files1 := saveFile files path
      match ingest with
      | .raised => (500, .errSaving, removeFile files1 path)
      | .stored uid sampleEmpty =>
        let files2 := removeFile files1 path
        match uid with
        | none => (400, .errProcessing, files2)
        | some u =>
          if sampleEmpty then (400, .errProcessing, files2)
          else (200, .success u, files2)

/-- Outcome of `requests.get(url)` in `/upload_from_url`: the call raised, or
it returned a response with a status code and body bytes. -/
inductive DownloadOutcome where
  | transportRaise : DownloadOutcome
  | response (status : Nat) (content : List Nat) : DownloadOutcome
  deriving DecidableEq

/-- `url.split("/")[-1]` (src/app.py line 211): the part after the last
slash, or the whole string when there is none. -/
def lastUrlPart (url : String) : String :=
  match afterLast '/' url.data with
  | some suf => suf.asString
  | none => url

/-- Embedding of the `/upload_from_url` handler (src/app.py lines 198-239).
The downloaded bytes become a `FileStorage` whose filename is the last
URL segment; `if file and ...` is false when that segment is empty (werkzeug
`FileStorage.__bool__` tests the filename), giving the 400 branch. Unlike
`/upload` there is no `try/finally` and no `os.remove`: the saved file stays
in the upload folder on every path after `file.save`. The content-type
header lookup is assumed present. -/
def upload_from_url
    (chardetDetect : List Nat → Option String)
    (decodeBytes : String → List Nat → Option (List Char))
    (magicFromBuffer : List Nat → String)
    (secure_filename : String → String)
    (url : String) (download : DownloadOutcome)
    (ingest : IngestOutcome) (files : List String) :
    Nat × UploadResp × List String :=
  match download with
  | .transportRaise => (500, .errUnhandled, files)
  | .response status content =>
    if status ≠ 200 then (500, .errDownload, files)
    else
      let filename := lastUrlPart url
      if filename = "" then (400, .errUnsupportedType, files)
      else
        match FileUtils.allowed_file chardetDetect decodeBytes magicFromBuffer
            filename content with
        | .error _ => (500, .errUnhandled, files)
        | .ok false => (400, .errUnsupportedType, files)
        | .ok true =>
          let path := secure_filename filename
          let files1 := saveFile files path
          match ingest with
          | .raised => (500, .errUnhandled, files1)
          | .stored uid sampleEmpty =>
            match uid with
            | none => (400, .errProcessing, files1)
            | some u =>
              if sampleEmpty then (400, .errProcessing, files1)
              else (200, .success u, files1)

/-- Python truthiness of a maybe-string (`None` and `''` are falsy), as used
by `if not user_query`, `if cleaned_sql_query` and `if chart_string`. -/
def pyTruthyStr : Option String → Bool
  | none => false
  | some s => !(s == "")

/-- Rows of an SQL result set, each row a list of column value strings. -/
abbrev QueryResults := List (List String)

/-- Modelled from the spec: the chart synthesizer `generate_charts` lives in
`data_processing.py`, which is absent from the sources (only its import and
call site are). Spec section 4.5 gives its contract
`maybe_chart(tabular_result) -> chart_artifact | null`: it returns an encoded
chart string when the result is chartable and null when it is not or when
chart generation fails — "this is not an error", so it is modelled as a total
function into `Option String` that never raises. -/
def ChartSynthesizer : Type := QueryResults → Option String

/-- One entry of the `messages` list built by `/analyze_data`. -/
inductive Msg where
  | assistantMsg (content : String) : Msg
  | chartMsg (content : String) : Msg
  deriving DecidableEq

/-- The distinct JSON bodies `/analyze_data` can answer with. -/
inductive AnalyzeResp where
  | errNoQuery : AnalyzeResp
  | errAnalyzing : AnalyzeResp
  | okMessages (messages : List Msg) : AnalyzeResp
  deriving DecidableEq

/-- What one `/analyze_data` request produces: HTTP status, body, and the
SQL statements sent to the database in order (`cursor.execute` and
`execute_query`). -/
structure AnalyzeOut where
  status : Nat
  resp : AnalyzeResp
  executed : List String
  deriving DecidableEq

/-- Embedding of the `/analyze_data/<upload_id>` handler (src/app.py lines
127-178). `userQuery` is `payload.get('query')`; `describeRows` is what
`cursor.fetchall()` returns after `DESCRIBE` (`.error` = the cursor raised);
`get_sql_query`, `execute_query` and `get_assistant_response` are the
collaborators from data_processing.py / database.py, applied to the same
arguments as in the source, with `.error` standing for a raised exception
(caught by the outer `except` as a 500); `generate_charts` is the
spec-modelled chart synthesizer. An empty row in `describeRows` makes
`column[0]` raise `IndexError`, hence the 500 branch. -/
def analyze_data_endpoint
    (upload_id : String) (userQuery : Option String)
    (describeRows : Except Unit (List (List String)))
    (get_sql_query : String → String → String → Except Unit (Option String))
    (execute_query : String → Except Unit QueryResults)
    (get_assistant_response : String → String → QueryResults → Except Unit String)
    (generate_charts : ChartSynthesizer) : AnalyzeOut :=
  if !pyTruthyStr userQuery then ⟨400, .errNoQuery, []⟩
  else
    let q := userQuery.getD ""
    let describeStmt := "DESCRIBE " ++ upload_id ++ ";"
    match describeRows with
    | .error _ => ⟨500, .errAnalyzing, [describeStmt]⟩
    | .ok rows =>
      if rows.any List.isEmpty then ⟨500, .errAnalyzing, [describeStmt]⟩
      else
        let column_names := String.intercalate ", " (rows.map (fun r => r.head?.getD ""))
        match get_sql_query q column_names upload_id with
        | .error _ => ⟨500, .errAnalyzing, [describeStmt]⟩
        | .ok cleaned_sql_query =>
          if pyTruthyStr cleaned_sql_query then
            let sql := cleaned_sql_query.getD ""
            match execute_query sql with
            | .error _ => ⟨500, .errAnalyzing, [describeStmt, sql]⟩
            | .ok query_results =>
              match get_assistant_response q sql query_results with
              | .error _ => ⟨500, .errAnalyzing, [describeStmt, sql]⟩
              | .ok assistant_response =>
                let messages := [Msg.assistantMsg assistant_response]
                let messages :=
                  if pyTruthyStr (generate_charts query_results) then
                    messages ++ [Msg.chartMsg ((generate_charts query_results).getD "")]
                  else messages
                ⟨200, .okMessages messages, [describeStmt, sql]⟩
          else
            ⟨200, .okMessages [Msg.assistantMsg
                ("Could not generate an SQL query from the user's question: " ++ q)],
              [describeStmt]⟩

/-- Outcome of `requests.get` on the catalog URL in `/search`: the call
raised, or it returned a response with a status code and a body whose
`.json()` either parses to catalog data or raises. -/
inductive UpstreamOutcome where
  | transportRaise : UpstreamOutcome
  | response (status : Nat) (body : Except Unit CatalogData) : UpstreamOutcome

/-- The distinct JSON bodies `/search` can answer with. -/
inductive SearchResp where
  | errNoQuery : SearchResp
  | errSearch : SearchResp
  | okData (data : CatalogData) : SearchResp
  deriving DecidableEq

/-- Embedding of the `/search` handler (src/app.py lines 180-196): reject a
falsy query with 400, turn a transport or JSON-parse exception into the 500
error branch, and otherwise return `filter_resources` of the parsed body with
status 200. The upstream status code is never consulted. -/
def search (userQuery : Option String) (upstream : UpstreamOutcome) :
    Nat × SearchResp :=
  if !pyTruthyStr userQuery then (400, .errNoQuery)
  else
    match upstream with
    | .transportRaise => (500, .errSearch)
    | .response _ body =>
      match body with
      | .error _ => (500, .errSearch)
      | .ok data => (200, .okData (filter_resources data))

end AppModel

open FileUtils AppModel

/-- C1: for every file whose extracted extension lowercases to `csv`, if the
content decodes under the chardet-detected encoding then `allowed_file`
returns true, and on decode failure it falls through to the MIME check
instead of rejecting; for every file with a different extracted extension,
`allowed_file` returns true iff the sniffed MIME type is in the allowed set
`ALLOWED_MIME_TYPES = [text/csv]`. -/
theorem C1_allowed_file_extension_and_mime
    (det : List Nat → Option String) (dec : String → List Nat → Option (List Char))
    (mime : List Nat → String) (filename : String) (content : List Nat) :
    (∀ rawExt enc, extOf filename = some rawExt → pyLower rawExt = "csv" →
        det content = some enc →
        ((∃ s, dec enc content = some s) →
          allowed_file det dec mime filename content = .ok true) ∧
        (dec enc content = none →
          allowed_file det dec mime filename content =
            .ok (ALLOWED_MIME_TYPES.contains (mime content)))) ∧
    (∀ rawExt, extOf filename = some rawExt → pyLower rawExt ≠ "csv" →
        allowed_file det dec mime filename content =
          .ok (ALLOWED_MIME_TYPES.contains (mime content))) := by
  constructor
  · intro rawExt enc hext hlow hdet
    constructor
    · rintro ⟨s, hs⟩
      simp [allowed_file, hext, hlow, hdet, hs]
    · intro hnone
      simp [allowed_file, hext, hlow, hdet, hnone]
  · intro rawExt hext hlow
    simp [allowed_file, hext, hlow]

/-- Witness for C1: a concrete `.csv` upload with a detected encoding and a
successful decode is accepted. -/
theorem C1_witness :
    allowed_file (fun _ => some "utf-8") (fun _ _ => some ['a'])
      (fun _ => "text/csv") "data.csv" [104] = .ok true :=
  ((C1_allowed_file_extension_and_mime (fun _ => some "utf-8")
      (fun _ _ => some ['a']) (fun _ => "text/csv") "data.csv" [104]).1
    "csv" "utf-8" rfl rfl rfl).1 ⟨['a'], rfl⟩

/-- C2, evaluated at the failing input: a file named `data` (no dot) makes
`allowed_file` raise `IndexError` at `filename.rsplit('.', 1)[1]`, so the
`/upload` handler's generic exception branch answers 500 Unhandled
exception, not the 400 Unsupported file type the claim requires. -/
theorem C2_no_extension_raises_and_returns_500 :
    allowed_file (fun _ => some "utf-8") (fun _ _ => some ['a'])
        (fun _ => "text/csv") "data" [104] = .error .indexError ∧
    upload_file (fun _ => some "utf-8") (fun _ _ => some ['a'])
        (fun _ => "text/csv") (fun s => s) true "data" [104]
        (.stored (some "t") false) [] = (500, .errUnhandled, []) := by
  exact ⟨rfl, rfl⟩

/-- The append-accumulator loop of `filter_resources` computes `List.filter`. -/
theorem append_foldl_filter {α : Type} (p : α → Bool) (l acc : List α) :
    l.foldl (fun acc x => if p x then acc ++ [x] else acc) acc = acc ++ l.filter p := by
  induction l generalizing acc with
  | nil => simp
  | cons x xs ih => by_cases h : p x <;> simp [List.filter_cons, h, ih]

/-- C6: when the upstream body has a result with a package list, the filtered
body keeps exactly the packages with at least one resource whose format
lowercases to `csv` (a package is kept iff it is an input package passing
`packageHasCsv`), and the kept list is a sublist of the input list, so the
relative order is preserved. -/
theorem C6_filter_keeps_exactly_csv_packages
    (data : CatalogData) (res : ResultBlock) (h : data.result = some res) :
    ∃ res', (filter_resources data).result = some res' ∧
      res'.results = res.results.filter packageHasCsv ∧
      (∀ p, p ∈ res'.results ↔ p ∈ res.results ∧ packageHasCsv p) ∧
      res'.results.Sublist res.results := by
  refine ⟨{ res with results := res.results.filter packageHasCsv }, ?_, rfl, ?_, ?_⟩
  · simp [filter_resources, h, append_foldl_filter]
  · intro p
    simp [List.mem_filter]
  · exact List.filter_sublist _

/-- Witness for C6: the filtering property at a concrete two-package body,
one package offering a CSV resource and one not. -/
theorem C6_witness :
    ∃ res', (filter_resources
        { help := "h", result := some { count := 2, results :=
            [{ name := "a", resources := [{ format := "CSV", url := "u" }] },
             { name := "b", resources := [{ format := "xls", url := "v" }] }] } }).result
        = some res' ∧
      res'.results =
        List.filter packageHasCsv
          [{ name := "a", resources := [{ format := "CSV", url := "u" }] },
           { name := "b", resources := [{ format := "xls", url := "v" }] }] ∧
      (∀ p, p ∈ res'.results ↔
        (p ∈ [({ name := "a", resources := [{ format := "CSV", url := "u" }] } : Package),
              ({ name := "b", resources := [{ format := "xls", url := "v" }] } : Package)] ∧
          packageHasCsv p)) ∧
      res'.results.Sublist
        [{ name := "a", resources := [{ format := "CSV", url := "u" }] },
         { name := "b", resources := [{ format := "xls", url := "v" }] }] :=
  C6_filter_keeps_exactly_csv_packages
    { help := "h", result := some { count := 2, results :=
        [{ name := "a", resources := [{ format := "CSV", url := "u" }] },
         { name := "b", resources := [{ format := "xls", url := "v" }] }] } }
    { count := 2, results :=
        [{ name := "a", resources := [{ format := "CSV", url := "u" }] },
         { name := "b", resources := [{ format := "xls", url := "v" }] }] }
    rfl

/-- C10: an upstream body without a result key passes through
`filter_resources` unchanged, and `/search` returns it verbatim with 200. -/
theorem C10_no_result_passthrough (data : CatalogData) (q : String) (st : Nat)
    (hres : data.result = none) (hq : q ≠ "") :
    filter_resources data = data ∧
    search (some q) (.response st (.ok data)) = (200, .okData data) := by
  have hfr : filter_resources data = data := by
    simp [filter_resources, hres]
  have hq' : pyTruthyStr (some q) = true := by simp [pyTruthyStr, hq]
  refine ⟨hfr, ?_⟩
  simp [search, hq', hfr]

/-- Witness for C10: the passthrough at a concrete resultless body. -/
theorem C10_witness :
    filter_resources { help := "h", result := none } = { help := "h", result := none } ∧
    search (some "population") (.response 200 (.ok { help := "h", result := none })) =
      (200, .okData { help := "h", result := none }) :=
  C10_no_result_passthrough { help := "h", result := none } "population" 200 rfl
    (by decide)

/-- C4 as stated is false: a concrete upstream response with status 503 and a
parseable JSON body is answered with HTTP 200 and the filtered body, not with
a 500 error. -/
theorem C4_counterexample_non_success_returns_200 :
    search (some "population") (.response 503 (.ok { help := "h", result := none })) =
      (200, .okData { help := "h", result := none }) ∧
    (search (some "population")
        (.response 503 (.ok { help := "h", result := none }))).1 ≠ 500 := by
  refine ⟨rfl, ?_⟩
  decide

/-- C4 amended: `/search` never consults the upstream status code. Whenever
the upstream body parses as JSON, the endpoint answers 200 with the filtered
body, whatever the status; the 500 error branch is taken exactly when the
upstream request raises or the body fails to parse as JSON. -/
theorem C4_amended_status_ignored (q : String) (hq : q ≠ "") :
    (∀ st data, search (some q) (.response st (.ok data)) =
        (200, .okData (filter_resources data))) ∧
    search (some q) .transportRaise = (500, .errSearch) ∧
    (∀ st, search (some q) (.response st (.error ())) = (500, .errSearch)) := by
  have hq' : pyTruthyStr (some q) = true := by simp [pyTruthyStr, hq]
  refine ⟨?_, ?_, ?_⟩ <;> simp [search, hq']

/-- Witness for C4's amended claim: a 404 upstream response with a parseable
body is still answered with 200. -/
theorem C4_amended_witness :
    search (some "population") (.response 404 (.ok { help := "x", result := none })) =
      (200, .okData (filter_resources { help := "x", result := none })) :=
  (C4_amended_status_ignored "population" (by decide)).1 404
    { help := "x", result := none }

/-- Saving a path makes it present in the upload folder. -/
theorem mem_saveFile (files : List String) (path : String) :
    path ∈ saveFile files path := by
  unfold saveFile
  split
  · assumption
  · simp

/-- Removing a freshly saved path restores the upload folder. -/
theorem removeFile_saveFile (files : List String) (path : String)
    (h : path ∉ files) : removeFile (saveFile files path) path = files := by
  unfold saveFile removeFile
  rw [if_neg h, List.erase_append_right _ h]
  simp

/-- C5 as stated is false at `/upload_from_url`: a concrete successful URL
upload saves `data.csv` into the empty upload folder and the handler finishes
with the file still present, because the handler has no `try/finally` and no
`os.remove`. -/
theorem C5_counterexample_url_file_not_removed :
    upload_from_url (fun _ => some "utf-8") (fun _ _ => some ['a'])
        (fun _ => "text/csv") (fun s => s) "http://h/data.csv"
        (.response 200 [104]) (.stored (some "t") false) []
      = (200, .success "t", ["data.csv"]) := rfl

/-- C5 amended: the `/upload` handler removes the saved temporary file after
ingestion on every outcome (with a fresh path the upload folder is left
exactly as it was, whether `clean_and_store_data` returned or raised), but
the `/upload_from_url` handler never removes it: on every ingest outcome the
saved path is still present in the final upload folder. -/
theorem C5_amended_upload_cleans_url_does_not
    (det : List Nat → Option String) (dec : String → List Nat → Option (List Char))
    (mime : List Nat → String) (sec : String → String) :
    (∀ filePresent filename content ingest files,
        sec filename ∉ files →
        (upload_file det dec mime sec filePresent filename content ingest files).2.2
          = files) ∧
    (∀ url content ingest files,
        lastUrlPart url ≠ "" →
        allowed_file det dec mime (lastUrlPart url) content = .ok true →
        sec (lastUrlPart url) ∈
          (upload_from_url det dec mime sec url (.response 200 content)
            ingest files).2.2) := by
  constructor
  · intro filePresent filename content ingest files hfresh
    cases filePresent with
    | false => rfl
    | true =>
      by_cases hfn : filename = ""
      · simp [upload_file, hfn]
      · cases hres : allowed_file det dec mime filename content with
        | error e => simp [upload_file, hfn, hres]
        | ok b =>
          cases b with
          | false => simp [upload_file, hfn, hres]
          | true =>
            cases ingest with
            | raised =>
              simp [upload_file, hfn, hres,
                removeFile_saveFile files (sec filename) hfresh]
            | stored uid sampleEmpty =>
              cases uid with
              | none =>
                simp [upload_file, hfn, hres,
                  removeFile_saveFile files (sec filename) hfresh]
              | some u =>
                cases sampleEmpty <;>
                  simp [upload_file, hfn, hres,
                    removeFile_saveFile files (sec filename) hfresh]
  · intro url content ingest files hfn hok
    have hmem := mem_saveFile files (sec (lastUrlPart url))
    cases ingest with
    | raised => simp [upload_from_url, hfn, hok, hmem]
    | stored uid sampleEmpty =>
      cases uid with
      | none => simp [upload_from_url, hfn, hok, hmem]
      | some u => cases sampleEmpty <;> simp [upload_from_url, hfn, hok, hmem]

/-- Witness for C5's amended claim: a concrete `/upload` run whose ingestion
raises leaves the empty upload folder empty, and a concrete
`/upload_from_url` run whose ingestion raises leaves the saved file present. -/
theorem C5_amended_witness :
    (upload_file (fun _ => some "utf-8") (fun _ _ => some ['a'])
        (fun _ => "text/csv") (fun s => s) true "a.csv" [104] .raised []).2.2 = [] ∧
    (fun s => s) (lastUrlPart "http://h/b.csv") ∈
      (upload_from_url (fun _ => some "utf-8") (fun _ _ => some ['a'])
        (fun _ => "text/csv") (fun s => s) "http://h/b.csv"
        (.response 200 [104]) .raised []).2.2 :=
  ⟨(C5_amended_upload_cleans_url_does_not (fun _ => some "utf-8")
      (fun _ _ => some ['a']) (fun _ => "text/csv") (fun s => s)).1
      true "a.csv" [104] .raised [] (by simp),
   (C5_amended_upload_cleans_url_does_not (fun _ => some "utf-8")
      (fun _ _ => some ['a']) (fun _ => "text/csv") (fun s => s)).2
      "http://h/b.csv" [104] .raised [] (by decide) (by rfl)⟩

/-- C3: when the query is truthy, the schema lookup, the SQL synthesis, the
execution and the narration all succeed, and the spec-modelled chart
synthesizer yields no chart (a falsy value), `/analyze_data` still answers
200 with the assistant narration as its only message — the chart step
degrading does not abort the response. -/
theorem C3_chart_failure_degrades
    (upload_id q sql a : String) (rows : List (List String)) (results : QueryResults)
    (gsq : String → String → String → Except Unit (Option String))
    (exq : String → Except Unit QueryResults)
    (gar : String → String → QueryResults → Except Unit String)
    (gchart : ChartSynthesizer)
    (hq : q ≠ "")
    (hrows : rows.any List.isEmpty = false)
    (hsq : gsq q (String.intercalate ", " (rows.map (fun r => r.head?.getD ""))) upload_id
      = .ok (some sql))
    (hsql : sql ≠ "")
    (hexec : exq sql = .ok results)
    (hnarr : gar q sql results = .ok a)
    (hchart : pyTruthyStr (gchart results) = false) :
    analyze_data_endpoint upload_id (some q) (.ok rows) gsq exq gar gchart =
      ⟨200, .okMessages [Msg.assistantMsg a],
        ["DESCRIBE " ++ upload_id ++ ";", sql]⟩ := by
  have hq' : pyTruthyStr (some q) = true := by simp [pyTruthyStr, hq]
  have hs' : pyTruthyStr (some sql) = true := by simp [pyTruthyStr, hsql]
  simp [analyze_data_endpoint, hq', hrows, hsq, hs', hexec, hnarr, hchart]

/-- Witness for C3: a concrete request where the chart synthesizer returns
nothing still produces the narration-only 200 response. -/
theorem C3_witness :
    analyze_data_endpoint "t1" (some "total?") (.ok [["amount"]])
      (fun _ _ _ => .ok (some "SELECT 1"))
      (fun _ => .ok [["1"]])
      (fun _ _ _ => .ok "the total is 1")
      (fun _ => none) =
      ⟨200, .okMessages [Msg.assistantMsg "the total is 1"],
        ["DESCRIBE t1;", "SELECT 1"]⟩ :=
  C3_chart_failure_degrades "t1" "total?" "SELECT 1" "the total is 1"
    [["amount"]] [["1"]]
    (fun _ _ _ => .ok (some "SELECT 1")) (fun _ => .ok [["1"]])
    (fun _ _ _ => .ok "the total is 1") (fun _ => none)
    (by decide) rfl rfl (by decide) rfl rfl rfl

/-- C7: when the query is truthy, the schema lookup succeeds, and
`get_sql_query` returns a falsy value (`None` or the empty string),
`/analyze_data` answers 200 with a single assistant message saying no SQL
query could be generated from the user's question — not a 500. -/
theorem C7_no_sql_still_200
    (upload_id q : String) (rows : List (List String)) (sqlOpt : Option String)
    (gsq : String → String → String → Except Unit (Option String))
    (exq : String → Except Unit QueryResults)
    (gar : String → String → QueryResults → Except Unit String)
    (gchart : ChartSynthesizer)
    (hq : q ≠ "")
    (hrows : rows.any List.isEmpty = false)
    (hsq : gsq q (String.intercalate ", " (rows.map (fun r => r.head?.getD ""))) upload_id
      = .ok sqlOpt)
    (hfalsy : pyTruthyStr sqlOpt = false) :
    analyze_data_endpoint upload_id (some q) (.ok rows) gsq exq gar gchart =
      ⟨200, .okMessages [Msg.assistantMsg
          ("Could not generate an SQL query from the user's question: " ++ q)],
        ["DESCRIBE " ++ upload_id ++ ";"]⟩ := by
  have hq' : pyTruthyStr (some q) = true := by simp [pyTruthyStr, hq]
  simp [analyze_data_endpoint, hq', hrows, hsq, hfalsy]

/-- Witness for C7: a concrete untranslatable question gets the apology
message with status 200. -/
theorem C7_witness :
    analyze_data_endpoint "t1" (some "why?") (.ok [["amount"]])
      (fun _ _ _ => .ok none)
      (fun _ => .ok [])
      (fun _ _ _ => .ok "")
      (fun _ => none) =
      ⟨200, .okMessages [Msg.assistantMsg
          "Could not generate an SQL query from the user's question: why?"],
        ["DESCRIBE t1;"]⟩ :=
  C7_no_sql_still_200 "t1" "why?" [["amount"]] none
    (fun _ _ _ => .ok none) (fun _ => .ok []) (fun _ _ _ => .ok "")
    (fun _ => none) (by decide) rfl rfl rfl

/-- C9: for every upload_id and truthy query, the first statement
`/analyze_data` sends to the database is exactly the concatenation
`DESCRIBE `, the verbatim upload_id, and `;`, whatever the collaborators
do afterwards — no validation, quoting, or sanitization is applied. -/
theorem C9_describe_verbatim
    (upload_id q : String) (hq : q ≠ "")
    (describeRows : Except Unit (List (List String)))
    (gsq : String → String → String → Except Unit (Option String))
    (exq : String → Except Unit QueryResults)
    (gar : String → String → QueryResults → Except Unit String)
    (gchart : ChartSynthesizer) :
    (analyze_data_endpoint upload_id (some q) describeRows
        gsq exq gar gchart).executed.head? =
      some ("DESCRIBE " ++ upload_id ++ ";") := by
  have hq' : pyTruthyStr (some q) = true := by simp [pyTruthyStr, hq]
  unfold analyze_data_endpoint
  rw [hq']
  rcases describeRows with e | rows
  · rfl
  · simp only [Bool.not_true, Bool.false_eq_true, if_false]
    repeat first
    | rfl
    | split

/-- Witness for C9: a path-injection style upload_id is embedded verbatim in
the DESCRIBE statement. -/
theorem C9_witness :
    (analyze_data_endpoint "t1; DROP TABLE t1" (some "hi") (.ok [["a"]])
        (fun _ _ _ => .ok none) (fun _ => .ok [])
        (fun _ _ _ => .ok "") (fun _ => none)).executed.head? =
      some "DESCRIBE t1; DROP TABLE t1;" :=
  C9_describe_verbatim "t1; DROP TABLE t1" "hi" (by decide) (.ok [["a"]])
    (fun _ _ _ => .ok none) (fun _ => .ok []) (fun _ _ _ => .ok "")
    (fun _ => none)

/-- C8 as stated is false: the encoder applies a further custom rule beyond
the listed ones — a dict is encoded by mapping `default` over its values
(src/app.py lines 48-49) instead of being delegated to the base encoder,
which would raise `TypeError`. -/
theorem C8_counterexample_dict_branch :
    JSONEncoder.default (.pyDict [("a", .naT)]) = .ok (.encDict [("a", .encNull)]) ∧
    JSONEncoder.default (.pyDict [("a", .naT)]) ≠ .error () := by
  have h : JSONEncoder.default (.pyDict [("a", .naT)])
      = .ok (.encDict [("a", .encNull)]) := by
    simp [JSONEncoder.default, JSONEncoder.defaultEntries, Except.map]
  exact ⟨h, by rw [h]; exact fun hc => Except.noConfusion hc⟩

/-- Bind on an ok value reduces to the continuation. -/
theorem except_bind_ok {α β ε : Type} (a : α) (f : α → Except ε β) :
    ((Except.ok a : Except ε α) >>= f) = f a := rfl

/-- Bind on an error propagates the error. -/
theorem except_bind_error {α β ε : Type} (e : ε) (f : α → Except ε β) :
    ((Except.error e : Except ε α) >>= f) = .error e := rfl

/-- Map on an ok value applies the function. -/
theorem except_map_ok {α β ε : Type} (f : α → β) (a : α) :
    Except.map f (.ok a : Except ε α) = .ok (f a) := rfl

/-- Map on an error propagates the error. -/
theorem except_map_error {α β ε : Type} (f : α → β) (e : ε) :
    Except.map f (.error e : Except ε α) = .error e := rfl

/-- Pure for `Except` is `ok`. -/
theorem except_pure {α ε : Type} (a : α) :
    (pure a : Except ε α) = .ok a := rfl

/-- The dict comprehension loop is `mapM` of the encoder over entry values. -/
theorem defaultEntries_eq_mapM (es : List (String × PyVal)) :
    JSONEncoder.defaultEntries es =
      es.mapM (fun kv => (JSONEncoder.default kv.2).map (fun ev => (kv.1, ev))) := by
  induction es with
  | nil => rfl
  | cons kv rest ih =>
    obtain ⟨k, v⟩ := kv
    rw [List.mapM_cons, ← ih]
    cases hv : JSONEncoder.default v with
    | error e =>
      simp only [JSONEncoder.defaultEntries, hv, except_map_error, except_bind_error]
    | ok ev =>
      cases hr : JSONEncoder.defaultEntries rest with
      | error e =>
        simp only [JSONEncoder.defaultEntries, hv, hr, except_map_ok,
          except_bind_ok, except_bind_error]
      | ok evs =>
        simp only [JSONEncoder.defaultEntries, hv, hr, except_map_ok,
          except_bind_ok, except_pure]

/-- C8 amended: the encoder's rules are exactly: the not-a-time sentinel
becomes null, a NaN NumPy scalar becomes null and a non-NaN one its plain
item value, pandas Timestamp, datetime and date values become their ISO-8601
string, a dict is encoded by applying the same encoding recursively to each
of its values (keys unchanged, the first failure propagating), and every
other value is delegated to the base encoder, which raises TypeError. -/
theorem C8_amended_encoder_rules :
    (JSONEncoder.default .naT = .ok .encNull) ∧
    (∀ i, JSONEncoder.default (.npScalar true i) = .ok .encNull) ∧
    (∀ i, JSONEncoder.default (.npScalar false i) = .ok (.encItem i)) ∧
    (∀ s, JSONEncoder.default (.pdTimestamp s) = .ok (.encStr s)) ∧
    (∀ s, JSONEncoder.default (.pyDatetime s) = .ok (.encStr s)) ∧
    (∀ s, JSONEncoder.default (.pyDate s) = .ok (.encStr s)) ∧
    (∀ es, JSONEncoder.default (.pyDict es) =
      (es.mapM (fun kv => (JSONEncoder.default kv.2).map (fun ev => (kv.1, ev)))).map
        EncVal.encDict) ∧
    (∀ t, JSONEncoder.default (.otherObj t) = .error ()) := by
  refine ⟨rfl, fun i => ?_, fun i => ?_, fun s => ?_, fun s => ?_, fun s => ?_,
    fun es => ?_, fun t => ?_⟩
  · simp [JSONEncoder.default]
  · simp [JSONEncoder.default]
  · simp [JSONEncoder.default]
  · simp [JSONEncoder.default]
  · simp [JSONEncoder.default]
  · rw [show JSONEncoder.default (.pyDict es)
        = (JSONEncoder.defaultEntries es).map EncVal.encDict from by
      simp [JSONEncoder.default]]
    rw [defaultEntries_eq_mapM]
  · simp [JSONEncoder.default]
